import Mathlib

/-!
Verification development for a browser text-to-speech client.

The repository has two logical pieces:
  * a PCM decoder (`decodeBase64`, `decodePcmData`) that turns a base64
    payload into per-channel floating-point sample arrays, and
  * a request orchestrator (`handleGenerateSpeech`) that validates input,
    calls an external speech service, extracts the inline audio payload
    and decodes it, tracking loading / error / buffer state.

The embedding below follows the JavaScript source statement by statement,
with JavaScript semantics made explicit:
  * bytes are `Nat` values; `Uint8Array` stores wrap modulo 256;
  * `new Int16Array(data.buffer)` throws a `RangeError` when the byte
    length of the buffer is not a multiple of 2 (ECMAScript
    `InitializeTypedArrayFromArrayBuffer`); we model this with `Except`;
  * `ctx.createBuffer(numChannels, frameCount, sampleRate)` throws a
    `NotSupportedError` when its channel count or its WebIDL-truncated
    length is zero (Web Audio `AudioBuffer` construction); this too is
    modelled with `Except`;
  * `frameCount = dataInt16.length / numChannels` is IEEE division, so it
    can be fractional; the WebIDL `unsigned long` conversion at
    `ctx.createBuffer(numChannels, frameCount, sampleRate)` truncates it,
    while the loop condition `i < frameCount` compares against the
    fractional value (for integers, `i < n / c` iff `i * c < n`);
  * out-of-bounds writes to a typed array are silently dropped, which is
    exactly the behaviour of `List.set`;
  * sample values `int16 / 32768.0` are dyadic rationals represented
    exactly by IEEE doubles, so we compute in `ℚ` with no loss.
-/

/-- One element of JavaScript `Uint8Array`: `Uint8Array` stores wrap
modulo 256 (`bytes[i] = binaryString.charCodeAt(i)` performs `ToUint8`). -/
def byteAt (data : List Nat) (i : Nat) : Nat :=
  data.getD i 0 % 256

/-- The unsigned 16-bit little-endian integer at index `j` of the
`Int16Array` view: assembled from bytes `2*j` (low) and `2*j+1`
(high). -/
def uint16At (data : List Nat) (j : Nat) : Nat :=
  byteAt data (2 * j) + 256 * byteAt data (2 * j + 1)

/-- The signed 16-bit little-endian integer at index `j` of the
`Int16Array` view: `uint16At` reinterpreted as a two's-complement
16-bit value. -/
def int16At (data : List Nat) (j : Nat) : Int :=
  if uint16At data j < 32768 then (uint16At data j : Int)
  else (uint16At data j : Int) - 65536

/-- Models `decodeBase64` from the source.  `window.atob` is a browser
primitive mapping a base64 string to a "binary string"; we model the
payload at the binary-string level, so this function performs the loop
`bytes[i] = binaryString.charCodeAt(i)` with the `Uint8Array` store
wrapping modulo 256. -/
def decodeBase64 (binaryString : String) : List Nat :=
  binaryString.data.map (fun c => c.toNat % 256)

/-- The body of the per-channel loop of `decodePcmData`:
`channelData` starts as the zero-filled array returned by
`ctx.createBuffer` (length `n / nc` after WebIDL truncation of the
fractional `frameCount`), and the loop
`for (let i = 0; i < frameCount; i++) channelData[i] = dataInt16[i * numChannels + channel] / 32768.0`
runs while `i * nc < n` (the integer form of `i < n / nc` over the
reals); writes at `i ≥ n / nc` fall outside the typed array and are
dropped, which is the behaviour of `List.set`.  Every loop iteration has
`i < n` once `nc ≥ 1`, so folding over `List.range n` with the loop
guard covers all iterations (for `nc = 0`, `createBuffer` throws before
this loop is reached, so the fill is never run there; the decoder is
only ever invoked with `numChannels = 1`). -/
def channelStep (data : List Nat) (nc channel : Nat) (arr : List ℚ) (i : Nat) : List ℚ :=
  if i * nc < data.length / 2 then
    arr.set i ((int16At data (i * nc + channel) : ℚ) / 32768)
  else arr

/-- The per-channel loop of `decodePcmData` (see `channelStep` for one
iteration). -/
def channelData (data : List Nat) (nc channel : Nat) : List ℚ :=
  (List.range (data.length / 2)).foldl (channelStep data nc channel)
    (List.replicate (data.length / 2 / nc) 0)

/-- The decoded audio buffer: sample rate plus one sample list per
channel (the `AudioBuffer` handed back by `decodePcmData`). -/
structure AudioBuffer where
  sampleRate : Nat
  channels : List (List ℚ)
deriving DecidableEq, Repr

/-- `decodePcmData` from the source.  Two platform-mandated throws occur
before the fill loops: `new Int16Array(data.buffer)` throws a
`RangeError` when the byte length is odd, and
`ctx.createBuffer(numChannels, frameCount, sampleRate)` throws a
`NotSupportedError` when its channel count or its length is zero — the
WebIDL `unsigned long` conversion truncates the fractional `frameCount`
to `⌊n / nc⌋` (and sends the `NaN` / `Infinity` arising at
`numChannels = 0` to `0`), so both zero conditions collapse to
`⌊n / nc⌋ = 0` in `Nat` division.  `createBuffer` additionally validates
`sampleRate` against its supported range, which is implementation
defined beyond the mandated `[8000, 96000]`; the program only ever
passes `24000`, inside every implementation's range, so that check is
not modelled.  Otherwise the function fills one sample array per channel
as in `channelData` and never raises. -/
def decodePcmData (data : List Nat) (sampleRate numChannels : Nat) :
    Except String AudioBuffer :=
  if data.length % 2 ≠ 0 then
    Except.error "byte length of Int16Array should be a multiple of 2"
  else if data.length / 2 / numChannels = 0 then
    Except.error "NotSupportedError: createBuffer called with zero length"
  else
    Except.ok
      { sampleRate := sampleRate
        channels := (List.range numChannels).map (fun ch => channelData data numChannels ch) }

-- ### Characterisation of the channel fill loop

/-- Folding the fill loop body over `List.range n` leaves the length
unchanged (typed-array writes never grow the array). -/
theorem channelFill_length (data : List Nat) (nc ch : Nat) :
    ∀ (n : Nat) (l : List ℚ),
      ((List.range n).foldl (channelStep data nc ch) l).length = l.length := by
  intro n
  induction n with
  | zero => intro l; simp
  | succ n ih =>
    intro l
    rw [List.range_succ, List.foldl_append]
    simp only [List.foldl_cons, List.foldl_nil]
    rw [channelStep]
    by_cases hp : n * nc < data.length / 2
    · rw [if_pos hp, List.length_set, ih l]
    · rw [if_neg hp, ih l]

/-- Each iteration `i` of the fill loop writes only index `i`, so the
final value at index `j` is the sample for frame `j` when iteration `j`
ran and wrote in bounds, and the initial value otherwise. -/
theorem channelFill_getElem? (data : List Nat) (nc ch : Nat) :
    ∀ (n : Nat) (l : List ℚ) (j : Nat),
      ((List.range n).foldl (channelStep data nc ch) l)[j]?
        = if j < n ∧ j * nc < data.length / 2 ∧ j < l.length then
            some ((int16At data (j * nc + ch) : ℚ) / 32768)
          else l[j]? := by
  intro n
  induction n with
  | zero =>
    intro l j
    simp
  | succ n ih =>
    intro l j
    rw [List.range_succ, List.foldl_append]
    simp only [List.foldl_cons, List.foldl_nil]
    have hlen : ((List.range n).foldl (channelStep data nc ch) l).length = l.length :=
      channelFill_length data nc ch n l
    rw [channelStep]
    by_cases hp : n * nc < data.length / 2
    · rw [if_pos hp]
      rw [List.getElem?_set, hlen, ih l j]
      by_cases hjn : n = j
      · subst hjn
        by_cases hnl : n < l.length
        · simp [hnl, hp]
        · simp only [if_pos rfl, if_neg hnl]
          have h2 : ¬ (n < n + 1 ∧ n * nc < data.length / 2 ∧ n < l.length) := by
            intro h; exact absurd h.2.2 hnl
          rw [if_neg h2]
          exact (List.getElem?_eq_none (Nat.le_of_not_lt hnl)).symm
      · rw [if_neg hjn]
        have hsplit : (j < n + 1 ∧ j * nc < data.length / 2 ∧ j < l.length)
            ↔ (j < n ∧ j * nc < data.length / 2 ∧ j < l.length) := by
          constructor
          · rintro ⟨h1, h2, h3⟩
            refine ⟨?_, h2, h3⟩
            rcases Nat.lt_succ_iff_lt_or_eq.mp h1 with h | h
            · exact h
            · exact absurd h.symm hjn
          · rintro ⟨h1, h2, h3⟩
            exact ⟨Nat.lt_succ_of_lt h1, h2, h3⟩
        rw [if_congr hsplit rfl rfl]
    · rw [if_neg hp]
      rw [ih l j]
      have hsplit : (j < n + 1 ∧ j * nc < data.length / 2 ∧ j < l.length)
          ↔ (j < n ∧ j * nc < data.length / 2 ∧ j < l.length) := by
        constructor
        · rintro ⟨h1, h2, h3⟩
          refine ⟨?_, h2, h3⟩
          rcases Nat.lt_succ_iff_lt_or_eq.mp h1 with h | h
          · exact h
          · subst h; exact absurd h2 hp
        · rintro ⟨h1, h2, h3⟩
          exact ⟨Nat.lt_succ_of_lt h1, h2, h3⟩
      rw [if_congr hsplit rfl rfl]

/-- The channel fill loop produces exactly the first `⌊n / nc⌋`
interleaved samples: `channelData data nc ch` is the list whose `i`-th
entry is `int16At data (i * nc + ch) / 32768`. -/
theorem channelData_eq (data : List Nat) (nc ch : Nat) :
    channelData data nc ch
      = (List.range (data.length / 2 / nc)).map
          (fun i => (int16At data (i * nc + ch) : ℚ) / 32768) := by
  apply List.ext_getElem?
  intro j
  unfold channelData
  rw [channelFill_getElem? data nc ch (data.length / 2)
    (List.replicate (data.length / 2 / nc) 0) j]
  by_cases hjlen : j < data.length / 2 / nc
  · have hnc : 0 < nc := by
      by_contra h
      have h0 : nc = 0 := by omega
      rw [h0] at hjlen
      simp at hjlen
    have hmul : j * nc < data.length / 2 := by
      have h1 : j + 1 ≤ data.length / 2 / nc := hjlen
      have h2 : (j + 1) * nc ≤ (data.length / 2 / nc) * nc := Nat.mul_le_mul_right nc h1
      have h3 : (data.length / 2 / nc) * nc ≤ data.length / 2 := Nat.div_mul_le_self _ nc
      have h4 : (j + 1) * nc ≤ data.length / 2 := le_trans h2 h3
      calc j * nc < j * nc + nc := by omega
        _ = (j + 1) * nc := by ring
        _ ≤ data.length / 2 := h4
    have hjn : j < data.length / 2 := by
      calc j ≤ j * nc := Nat.le_mul_of_pos_right j hnc
        _ < data.length / 2 := hmul
    rw [if_pos ⟨hjn, hmul, by simpa using hjlen⟩]
    rw [List.getElem?_map, List.getElem?_range hjlen]
    rfl
  · have hcond : ¬ (j < data.length / 2 ∧ j * nc < data.length / 2 ∧
        j < (List.replicate (data.length / 2 / nc) (0 : ℚ)).length) := by
      rintro ⟨-, -, h3⟩
      rw [List.length_replicate] at h3
      exact hjlen h3
    rw [if_neg hcond]
    rw [List.getElem?_eq_none (by simpa using hjlen),
      List.getElem?_eq_none (by simpa using hjlen)]

-- ### The speech request orchestrator (`handleGenerateSpeech`)

/-- The closed emotion set of the UI (the `Emotion` string enum of
`types.ts`). -/
inductive Emotion where
  | Happy
  | Sad
  | Fear
  | Frightened
  | Angry
  | Excited
deriving DecidableEq, Repr

/-- One entry of the `EMOTIONS` table (`EmotionOption` of `types.ts`). -/
structure EmotionOption where
  id : Emotion
  label : String
  promptPrefix : String
deriving DecidableEq, Repr

/-- The `EMOTIONS` table of `constants.ts`. -/
def EMOTIONS : List EmotionOption :=
  [ { id := Emotion.Happy, label := "Happy", promptPrefix := "Say cheerfully" },
    { id := Emotion.Sad, label := "Sad", promptPrefix := "Say mournfully" },
    { id := Emotion.Fear, label := "Fearful", promptPrefix := "Say with fear" },
    { id := Emotion.Frightened, label := "Frightened",
      promptPrefix := "Say in a frightened tone" },
    { id := Emotion.Angry, label := "Angry", promptPrefix := "Say angrily" },
    { id := Emotion.Excited, label := "Excited", promptPrefix := "Say excitedly" } ]

/-- The `inlineData` field of a response part; its `data` field holds the
base64 audio payload when present. -/
structure InlineData where
  data : Option String
deriving DecidableEq, Repr

/-- One element of `candidates[0].content.parts`. -/
structure ResponsePart where
  inlineData : Option InlineData
deriving DecidableEq, Repr

/-- The `content` field of a candidate. -/
structure ResponseContent where
  parts : Option (List ResponsePart)
deriving DecidableEq, Repr

/-- One element of `response.candidates`. -/
structure Candidate where
  content : Option ResponseContent
deriving DecidableEq, Repr

/-- The service response shape consumed by `handleGenerateSpeech`: every
level of `candidates[0].content.parts[0].inlineData.data` may be absent. -/
structure GenResponse where
  candidates : Option (List Candidate)
deriving DecidableEq, Repr

/-- The optional-chaining extraction
`response.candidates?.[0]?.content?.parts?.[0]?.inlineData?.data`:
each `?.` (and each `[0]` on a possibly empty list) short-circuits to
"absent". -/
def extractAudio (response : GenResponse) : Option String :=
  (((((response.candidates.bind List.head?).bind Candidate.content).bind
    ResponseContent.parts).bind List.head?).bind ResponsePart.inlineData).bind
    InlineData.data

/-- The decoded audio buffer slot, error slot and loading flag of the
component: the React state that `handleGenerateSpeech` reads and writes
(`text`, emotion, voice and speaking rate are inputs of a run and appear
as arguments instead). -/
structure AppState where
  isLoading : Bool
  error : Option String
  audioBuffer : Option AudioBuffer
deriving DecidableEq, Repr

/-- JavaScript `String.prototype.trim`, modelled executably: drop
leading and trailing whitespace characters (space, tab, CR, LF; the
further Unicode space classes JavaScript also strips play no role in the
claims). -/
def jsTrim (s : String) : String :=
  String.mk (((s.data.dropWhile Char.isWhitespace).reverse.dropWhile
    Char.isWhitespace).reverse)

/-- JavaScript truthiness test `!process.env.API_KEY`: an absent key and
the empty string are both falsy. -/
def keyFalsy : Option String → Bool
  | none => true
  | some k => k == ""

/-- Observable outcome of one `handleGenerateSpeech` run: the final
component state, whether the external service was invoked, and the
prompt it was sent. -/
structure RunResult where
  final : AppState
  serviceCalled : Bool
  promptSent : Option String
deriving DecidableEq, Repr

/-- The body of the `try` block of `handleGenerateSpeech`.  The external
call is a parameter: `svc` is the outcome `ai.models.generateContent`
would produce when invoked (a thrown error, carried as its message, or a
response value).  The result is the thrown-or-returned outcome together
with whether the service was invoked and with which prompt.  The
`GoogleGenAI` constructor and the lazy `AudioContext` creation touch no
modelled state and are omitted; the decoder is called with the hardcoded
format `24000 Hz`, `1` channel. -/
def tryBlock (text : String) (selectedEmotion : Emotion)
    (svc : Except String GenResponse) :
    Except String AudioBuffer × Bool × Option String :=
  match EMOTIONS.find? (fun e => e.id == selectedEmotion) with
  | none => (Except.error "Invalid emotion selected.", false, none)
  | some emotionOption =>
    let prompt := emotionOption.promptPrefix ++ ": " ++ text
    match svc with
    | Except.error m => (Except.error m, true, some prompt)
    | Except.ok response =>
      match extractAudio response with
      | none => (Except.error "No audio data received from the API.", true, some prompt)
      | some base64Audio =>
        (decodePcmData (decodeBase64 base64Audio) 24000 1, true, some prompt)

/-- One run of `handleGenerateSpeech`, starting from component state `s₀`
with the current `text`, the `process.env.API_KEY` value, the selected
emotion, and the outcome `svc` the external service would produce if
called.  Mirrors the source statement by statement: the guard
`!text.trim() || !process.env.API_KEY` returns early after `setError`
(leaving `isLoading` and any previously decoded `audioBuffer` untouched);
otherwise `setIsLoading(true)`, `setError(null)`, `setAudioBuffer(null)`
run, the `try` body executes, a `catch` stores the thrown message (every
modelled throw is an `Error` carrying one), and `finally` runs
`setIsLoading(false)`. -/
def handleGenerateSpeech (s₀ : AppState) (text : String) (apiKey : Option String)
    (selectedEmotion : Emotion) (svc : Except String GenResponse) : RunResult :=
  if jsTrim text == "" || keyFalsy apiKey then
    { final := { s₀ with
        error := some "Please enter text and ensure your API key is configured." },
      serviceCalled := false, promptSent := none }
  else
    let s₁ : AppState := { isLoading := true, error := none, audioBuffer := none }
    match tryBlock text selectedEmotion svc with
    | (Except.ok buf, called, prompt) =>
      { final := { s₁ with audioBuffer := some buf, isLoading := false },
        serviceCalled := called, promptSent := prompt }
    | (Except.error m, called, prompt) =>
      { final := { s₁ with error := some m, isLoading := false },
        serviceCalled := called, promptSent := prompt }

-- ### Shared helper lemmas

/-- A 16-bit word is below 2^16. -/
theorem uint16At_lt (data : List Nat) (j : Nat) : uint16At data j < 65536 := by
  unfold uint16At byteAt
  omega

/-- Every `Int16Array` element lies in the signed 16-bit range. -/
theorem int16At_bounds (data : List Nat) (j : Nat) :
    -32768 ≤ int16At data j ∧ int16At data j ≤ 32767 := by
  have hu : uint16At data j < 65536 := uint16At_lt data j
  unfold int16At
  by_cases h : uint16At data j < 32768
  · rw [if_pos h]
    omega
  · rw [if_neg h]
    omega

/-- Lengths: every channel list has `⌊byteLength / 2 / nc⌋` entries. -/
theorem channelData_length (data : List Nat) (nc ch : Nat) :
    (channelData data nc ch).length = data.length / 2 / nc := by
  rw [channelData_eq]
  simp

/-- On even byte length with a non-zero truncated frame count,
`decodePcmData` succeeds and returns the per-channel fills. -/
theorem decodePcmData_ok (data : List Nat) (sr nc : Nat)
    (h1 : data.length % 2 = 0) (h2 : data.length / 2 / nc ≠ 0) :
    decodePcmData data sr nc
      = Except.ok
          { sampleRate := sr
            channels := (List.range nc).map (fun ch => channelData data nc ch) } := by
  unfold decodePcmData
  rw [if_neg (by omega), if_neg h2]

/-- On odd byte length, `decodePcmData` raises the `Int16Array`
construction error. -/
theorem decodePcmData_odd (data : List Nat) (sr nc : Nat)
    (h : data.length % 2 ≠ 0) :
    decodePcmData data sr nc
      = Except.error "byte length of Int16Array should be a multiple of 2" := by
  unfold decodePcmData
  rw [if_pos h]

/-- On even byte length with truncated frame count zero (empty payload,
even length below `2 * nc`, or `nc = 0`), `decodePcmData` raises the
`createBuffer` error. -/
theorem decodePcmData_zeroFrames (data : List Nat) (sr nc : Nat)
    (h1 : data.length % 2 = 0) (h2 : data.length / 2 / nc = 0) :
    decodePcmData data sr nc
      = Except.error "NotSupportedError: createBuffer called with zero length" := by
  unfold decodePcmData
  rw [if_neg (by omega), if_pos h2]

/-- Inversion: a successful decode forces an even byte length and a
non-zero truncated frame count, and pins the returned buffer. -/
theorem decodePcmData_ok_inv (data : List Nat) (sr nc : Nat) (buf : AudioBuffer)
    (h : decodePcmData data sr nc = Except.ok buf) :
    data.length % 2 = 0 ∧ data.length / 2 / nc ≠ 0 ∧
      buf = { sampleRate := sr
              channels := (List.range nc).map (fun ch => channelData data nc ch) } := by
  unfold decodePcmData at h
  by_cases h1 : data.length % 2 ≠ 0
  · rw [if_pos h1] at h
    exact absurd h (by simp)
  · rw [if_neg h1] at h
    by_cases h2 : data.length / 2 / nc = 0
    · rw [if_pos h2] at h
      exact absurd h (by simp)
    · rw [if_neg h2] at h
      injection h with h
      exact ⟨by omega, h2, h.symm⟩

-- ### C1 – C4: the PCM decoder

/-- C1 fails as stated on two inputs whose lengths are not multiples of
`2 * numChannels`: a 1-byte payload (odd length: the `Int16Array` view
over an odd-sized buffer throws a `RangeError`), and a 2-byte payload at
2 channels (even length below one frame: `createBuffer` is called with
the truncated frame count `0` and throws a `NotSupportedError`).  In
both cases the decoder raises instead of truncating. -/
theorem C1_counterexample :
    (([(0 : Nat)] : List Nat).length % (2 * 1) ≠ 0 ∧
      ∃ m, decodePcmData [(0 : Nat)] 24000 1 = Except.error m) ∧
    (([(0 : Nat), 0] : List Nat).length % (2 * 2) ≠ 0 ∧
      ∃ m, decodePcmData [(0 : Nat), 0] 24000 2 = Except.error m) := by
  exact ⟨⟨by decide, _, rfl⟩, ⟨by decide, _, rfl⟩⟩

/-- C1 (amended): for a decoded byte payload of even length holding at
least one full frame (`2 * numChannels ≤ length`) the decoder truncates
to `⌊length / (2 * numChannels)⌋` frames per channel without raising;
a payload of odd byte length makes the `Int16Array` construction raise
a `RangeError`, and an even-length payload shorter than one frame makes
`createBuffer` raise a `NotSupportedError` (truncated frame count 0).
Stated at the program's sample rate 24000. -/
theorem C1_truncation (data : List Nat) (nc : Nat) (hnc : 0 < nc) :
    (data.length % 2 = 0 → 2 * nc ≤ data.length →
      ∃ buf, decodePcmData data 24000 nc = Except.ok buf ∧
        ∀ ch ∈ buf.channels, ch.length = data.length / (2 * nc)) ∧
    (data.length % 2 ≠ 0 →
      ∃ m, decodePcmData data 24000 nc = Except.error m) ∧
    (data.length % 2 = 0 → data.length < 2 * nc →
      ∃ m, decodePcmData data 24000 nc = Except.error m) := by
  refine ⟨?_, ?_, ?_⟩
  · intro heven hframe
    have hdiv : data.length / 2 / nc ≠ 0 := by
      have hle : nc ≤ data.length / 2 := by
        rw [Nat.le_div_iff_mul_le (by omega : 0 < 2)]
        omega
      have h1 : 1 ≤ data.length / 2 / nc := (Nat.one_le_div_iff hnc).mpr hle
      omega
    refine ⟨_, decodePcmData_ok data 24000 nc heven hdiv, ?_⟩
    intro ch hch
    rcases List.mem_map.mp hch with ⟨c, -, rfl⟩
    rw [channelData_length, Nat.div_div_eq_div_mul]
  · intro hodd
    exact ⟨_, decodePcmData_odd data 24000 nc hodd⟩
  · intro heven hshort
    have hdiv : data.length / 2 / nc = 0 := by
      have hlt : data.length / 2 < nc := by
        rw [Nat.div_lt_iff_lt_mul (by omega : 0 < 2)]
        omega
      exact Nat.div_eq_of_lt hlt
    exact ⟨_, decodePcmData_zeroFrames data 24000 nc heven hdiv⟩

/-- Witness for C1 at a concrete input: 6 bytes, 2 channels
(6 is even but not a multiple of 4, and holds one full frame):
one frame per channel. -/
theorem C1_witness :
    ∃ buf, decodePcmData [(1 : Nat), 2, 3, 4, 5, 6] 24000 2 = Except.ok buf ∧
      ∀ ch ∈ buf.channels,
        ch.length = ([(1 : Nat), 2, 3, 4, 5, 6] : List Nat).length / (2 * 2) :=
  (C1_truncation [(1 : Nat), 2, 3, 4, 5, 6] 2 (by decide)).1 (by decide) (by decide)

/-- Channel `c` of a successful decode is the fill for channel `c`. -/
theorem decode_channel_eq (data : List Nat) (sr nc : Nat) (buf : AudioBuffer)
    (h : decodePcmData data sr nc = Except.ok buf) (c : Nat) (hc : c < nc) :
    buf.channels.getD c [] = channelData data nc c := by
  rcases decodePcmData_ok_inv data sr nc buf h with ⟨-, -, rfl⟩
  simp only [List.getD_eq_getElem?_getD, List.getElem?_map, List.getElem?_range hc]
  rfl

/-- C2: the decoded sample at channel `c`, frame `i` is the signed 16-bit
little-endian integer at interleaved position `i * numChannels + c` of
the byte stream, divided by 32768. -/
theorem C2_sample_value (data : List Nat) (sr nc : Nat) (buf : AudioBuffer)
    (h : decodePcmData data sr nc = Except.ok buf)
    (c i : Nat) (hc : c < nc) (hi : i < (buf.channels.getD c []).length) :
    (buf.channels.getD c []).getD i 0 = (int16At data (i * nc + c) : ℚ) / 32768 := by
  rw [decode_channel_eq data sr nc buf h c hc] at hi ⊢
  rw [channelData_eq] at hi ⊢
  rw [List.length_map, List.length_range] at hi
  simp only [List.getD_eq_getElem?_getD, List.getElem?_map, List.getElem?_range hi]
  rfl

/-- Witness for C2: two channels, two frames; the sample at channel 1,
frame 1 sits at interleaved position `1 * 2 + 1 = 3`. -/
theorem C2_witness :
    ((({ sampleRate := 24000,
         channels := [[1 / 32768, 3 / 32768], [2 / 32768, 4 / 32768]] } :
        AudioBuffer).channels.getD 1 []).getD 1 0)
      = (int16At [(1 : Nat), 0, 2, 0, 3, 0, 4, 0] (1 * 2 + 1) : ℚ) / 32768 :=
  C2_sample_value [(1 : Nat), 0, 2, 0, 3, 0, 4, 0] 24000 2
    { sampleRate := 24000,
      channels := [[1 / 32768, 3 / 32768], [2 / 32768, 4 / 32768]] }
    rfl 1 1 (by decide) (by decide)

/-- C3 fails as stated at `N = 0`: the empty payload has length
`2 * numChannels * 0`, but instead of yielding a buffer of zero-length
channels the decoder raises — `createBuffer` is called with frame count
`0` and throws a `NotSupportedError`. -/
theorem C3_counterexample :
    ([] : List Nat).length = 2 * 1 * 0 ∧
      ∃ m, decodePcmData ([] : List Nat) 24000 1 = Except.error m := by
  exact ⟨rfl, _, rfl⟩

/-- C3 (amended): for every `N ≥ 1`, a payload of exactly
`2 * numChannels * N` bytes decodes to `numChannels` channel lists of
exactly `N` frames each; at `N = 0` (the empty payload) `createBuffer`
is called with frame count `0` and raises a `NotSupportedError` instead.
Stated at the program's sample rate 24000. -/
theorem C3_exact_frames (data : List Nat) (nc N : Nat) (hnc : 0 < nc)
    (hlen : data.length = 2 * nc * N) :
    (0 < N →
      ∃ buf, decodePcmData data 24000 nc = Except.ok buf ∧
        buf.channels.length = nc ∧ ∀ ch ∈ buf.channels, ch.length = N) ∧
    (N = 0 → ∃ m, decodePcmData data 24000 nc = Except.error m) := by
  have heven : data.length % 2 = 0 := by
    rw [hlen, Nat.mul_assoc]
    exact Nat.mul_mod_right 2 (nc * N)
  have hframes : data.length / 2 / nc = N := by
    rw [hlen, Nat.mul_assoc, Nat.mul_div_cancel_left _ (by omega : 0 < 2),
      Nat.mul_div_cancel_left _ hnc]
  constructor
  · intro hN
    refine ⟨_, decodePcmData_ok data 24000 nc heven (by omega), ?_, ?_⟩
    · simp
    · intro ch hch
      rcases List.mem_map.mp hch with ⟨c, -, rfl⟩
      rw [channelData_length, hframes]
  · intro hN
    exact ⟨_, decodePcmData_zeroFrames data 24000 nc heven (by omega)⟩

/-- Witness for C3: 4 bytes, 2 channels, 1 frame per channel. -/
theorem C3_witness :
    ∃ buf, decodePcmData [(0 : Nat), 0, 0, 0] 24000 2 = Except.ok buf ∧
      buf.channels.length = 2 ∧ ∀ ch ∈ buf.channels, ch.length = 1 :=
  (C3_exact_frames [(0 : Nat), 0, 0, 0] 2 1 (by decide) (by decide)).1 (by decide)

/-- Dividing a signed 16-bit value by 32768 lands in `[-1, 32767/32768]`,
hence in `[-1, 1)`. -/
theorem sample_bounds (v : Int) (h1 : -32768 ≤ v) (h2 : v ≤ 32767) :
    -1 ≤ (v : ℚ) / 32768 ∧ (v : ℚ) / 32768 < 1 ∧ (v : ℚ) / 32768 ≤ 32767 / 32768 := by
  have h32 : (0 : ℚ) < 32768 := by norm_num
  have hv1 : (-32768 : ℚ) ≤ (v : ℚ) := by exact_mod_cast h1
  have hv2 : (v : ℚ) ≤ 32767 := by exact_mod_cast h2
  refine ⟨?_, ?_, ?_⟩
  · rw [le_div_iff₀ h32]
    linarith
  · rw [div_lt_iff₀ h32]
    linarith
  · rw [div_le_div_iff₀ h32 h32]
    linarith

/-- Every entry of a channel fill is an interleaved 16-bit sample divided
by 32768. -/
theorem channelData_mem (data : List Nat) (nc ch : Nat) (s : ℚ)
    (hs : s ∈ channelData data nc ch) :
    ∃ i, s = (int16At data (i * nc + ch) : ℚ) / 32768 := by
  rw [channelData_eq] at hs
  rcases List.mem_map.mp hs with ⟨i, -, rfl⟩
  exact ⟨i, rfl⟩

/-- C4: every decoded sample lies in `[-1, 1)` and never exceeds
`32767/32768`; `-1` is attained at int16 value `-32768` (bytes
`0x00 0x80`) and the maximum `32767/32768` at `0xFF 0x7F`, so `+1` is
never produced. -/
theorem C4_sample_range :
    (∀ (data : List Nat) (sr nc : Nat) (buf : AudioBuffer),
        decodePcmData data sr nc = Except.ok buf →
        ∀ ch ∈ buf.channels, ∀ s ∈ ch,
          -1 ≤ s ∧ s < 1 ∧ s ≤ 32767 / 32768) ∧
    decodePcmData [(0 : Nat), 128] 24000 1
      = Except.ok { sampleRate := 24000, channels := [[-1]] } ∧
    decodePcmData [(255 : Nat), 127] 24000 1
      = Except.ok { sampleRate := 24000, channels := [[32767 / 32768]] } := by
  have hneg : ((-32768 : Int) : ℚ) / 32768 = -1 := by norm_num
  have hmax : ((32767 : Int) : ℚ) / 32768 = 32767 / 32768 := by norm_num
  refine ⟨?_, ?_, ?_⟩
  · intro data sr nc buf h ch hch s hs
    rcases decodePcmData_ok_inv data sr nc buf h with ⟨-, -, rfl⟩
    have hch' : ch ∈ (List.range nc).map (fun c => channelData data nc c) := hch
    rcases List.mem_map.mp hch' with ⟨c, -, rfl⟩
    rcases channelData_mem data nc c s hs with ⟨i, rfl⟩
    have hb := int16At_bounds data (i * nc + c)
    exact sample_bounds _ hb.1 hb.2
  · have h0 : decodePcmData [(0 : Nat), 128] 24000 1
        = Except.ok ⟨24000, [[((-32768 : Int) : ℚ) / 32768]]⟩ := rfl
    rw [h0, hneg]
  · have h1 : decodePcmData [(255 : Nat), 127] 24000 1
        = Except.ok ⟨24000, [[((32767 : Int) : ℚ) / 32768]]⟩ := rfl
    rw [h1, hmax]

/-- Witness for C4 at the reachable minimum `-1 = -32768 / 32768`. -/
theorem C4_witness :
    -1 ≤ ((-32768 : Int) : ℚ) / 32768 ∧ ((-32768 : Int) : ℚ) / 32768 < 1 ∧
      ((-32768 : Int) : ℚ) / 32768 ≤ 32767 / 32768 :=
  C4_sample_range.1 [(0 : Nat), 128] 24000 1
    { sampleRate := 24000, channels := [[((-32768 : Int) : ℚ) / 32768]] } rfl
    [((-32768 : Int) : ℚ) / 32768] (List.mem_singleton.mpr rfl)
    (((-32768 : Int) : ℚ) / 32768) (List.mem_singleton.mpr rfl)

-- ### Helper lemmas for the orchestrator

/-- The `EMOTIONS` lookup succeeds for every enum value, and the found
option carries the id looked up. -/
theorem EMOTIONS_find?_id (emotion : Emotion) :
    ∃ opt, EMOTIONS.find? (fun e => e.id == emotion) = some opt ∧ opt.id = emotion := by
  cases emotion <;> exact ⟨_, rfl, rfl⟩

/-- `tryBlock` always finds the emotion option; in every service branch
its outcome records the service call and carries the constructed
prompt. -/
theorem tryBlock_eq (text : String) (emotion : Emotion)
    (svc : Except String GenResponse) :
    ∃ opt, EMOTIONS.find? (fun e => e.id == emotion) = some opt ∧
      tryBlock text emotion svc
        = ((match svc with
            | Except.error m => Except.error m
            | Except.ok response =>
              match extractAudio response with
              | none => Except.error "No audio data received from the API."
              | some payload => decodePcmData (decodeBase64 payload) 24000 1),
           true, some (opt.promptPrefix ++ ": " ++ text)) := by
  rcases EMOTIONS_find?_id emotion with ⟨opt, hfind, -⟩
  refine ⟨opt, hfind, ?_⟩
  unfold tryBlock
  rw [hfind]
  rcases svc with m | response
  · rfl
  · cases hx : extractAudio response
    · simp only [hx]
    · simp only [hx]

/-- When the guard passes, the run resets the state and finishes from the
`try` outcome: buffer on success, message on failure, loading cleared
either way, and the call record of `tryBlock`. -/
theorem handle_guard_false (s₀ : AppState) (text : String) (apiKey : Option String)
    (emotion : Emotion) (svc : Except String GenResponse)
    (h : (jsTrim text == "" || keyFalsy apiKey) = false) :
    handleGenerateSpeech s₀ text apiKey emotion svc
      = match tryBlock text emotion svc with
        | (Except.ok buf, called, prompt) =>
          { final := { isLoading := false, error := none, audioBuffer := some buf },
            serviceCalled := called, promptSent := prompt }
        | (Except.error m, called, prompt) =>
          { final := { isLoading := false, error := some m, audioBuffer := none },
            serviceCalled := called, promptSent := prompt } := by
  unfold handleGenerateSpeech
  rw [if_neg (by rw [h]; exact Bool.false_ne_true)]

/-- Componentwise reading of `handle_guard_false`. -/
theorem handle_components (s₀ : AppState) (text : String) (apiKey : Option String)
    (emotion : Emotion) (svc : Except String GenResponse)
    (h : (jsTrim text == "" || keyFalsy apiKey) = false) :
    (handleGenerateSpeech s₀ text apiKey emotion svc).serviceCalled
        = (tryBlock text emotion svc).2.1 ∧
    (handleGenerateSpeech s₀ text apiKey emotion svc).promptSent
        = (tryBlock text emotion svc).2.2 ∧
    (handleGenerateSpeech s₀ text apiKey emotion svc).final.isLoading = false ∧
    ((handleGenerateSpeech s₀ text apiKey emotion svc).final.error,
      (handleGenerateSpeech s₀ text apiKey emotion svc).final.audioBuffer)
        = (match (tryBlock text emotion svc).1 with
           | Except.ok buf => (none, some buf)
           | Except.error m => (some m, none)) := by
  rw [handle_guard_false s₀ text apiKey emotion svc h]
  rcases tryBlock text emotion svc with ⟨m | buf, called, prompt⟩
  · exact ⟨rfl, rfl, rfl, rfl⟩
  · exact ⟨rfl, rfl, rfl, rfl⟩

/-- The guard is false exactly when the trimmed text is non-empty and the
credential is truthy. -/
theorem guard_false_of (text : String) (apiKey : Option String)
    (h1 : jsTrim text ≠ "") (h2 : keyFalsy apiKey = false) :
    (jsTrim text == "" || keyFalsy apiKey) = false := by
  rw [Bool.or_eq_false_iff]
  exact ⟨beq_eq_false_iff_ne.mpr h1, h2⟩

-- ### C5 – C10: the orchestrator

/-- C5: empty-after-trim text or an absent credential short-circuits:
the invalid-input message is stored and the external service is never
invoked. -/
theorem C5_invalid_input (s₀ : AppState) (text : String) (apiKey : Option String)
    (emotion : Emotion) (svc : Except String GenResponse)
    (h : jsTrim text = "" ∨ apiKey = none) :
    (handleGenerateSpeech s₀ text apiKey emotion svc).final.error
        = some "Please enter text and ensure your API key is configured." ∧
    (handleGenerateSpeech s₀ text apiKey emotion svc).serviceCalled = false := by
  have hguard : (jsTrim text == "" || keyFalsy apiKey) = true := by
    rcases h with h | h
    · rw [h]
      rfl
    · rw [h]
      simp [keyFalsy]
  have hrun : handleGenerateSpeech s₀ text apiKey emotion svc
      = { final := { s₀ with
            error := some "Please enter text and ensure your API key is configured." },
          serviceCalled := false, promptSent := none } := by
    unfold handleGenerateSpeech
    rw [if_pos hguard]
  rw [hrun]
  exact ⟨rfl, rfl⟩

/-- Witness for C5: whitespace-only text with a configured key. -/
theorem C5_witness :
    (handleGenerateSpeech { isLoading := false, error := none, audioBuffer := none }
        "   " (some "key") Emotion.Happy (Except.error "net")).final.error
        = some "Please enter text and ensure your API key is configured." ∧
    (handleGenerateSpeech { isLoading := false, error := none, audioBuffer := none }
        "   " (some "key") Emotion.Happy (Except.error "net")).serviceCalled = false :=
  C5_invalid_input { isLoading := false, error := none, audioBuffer := none }
    "   " (some "key") Emotion.Happy (Except.error "net") (Or.inl (by decide))

/-- C6 fails as stated: starting from a state still holding a previously
decoded buffer, a run rejected by the precondition guard (here: absent
credential) stores the error message but does not clear the old buffer,
so the message and the buffer are both set at once. -/
theorem C6_counterexample :
    ((handleGenerateSpeech
        { isLoading := false, error := none,
          audioBuffer := some { sampleRate := 24000, channels := [[0]] } }
        "hi" none Emotion.Happy (Except.error "network")).final.error ≠ none) ∧
    ((handleGenerateSpeech
        { isLoading := false, error := none,
          audioBuffer := some { sampleRate := 24000, channels := [[0]] } }
        "hi" none Emotion.Happy (Except.error "network")).final.audioBuffer ≠ none) := by
  decide

/-- C6 (amended): every run that passes the precondition guard ends in an
exclusive state — either a decoded buffer and no error message, or an
error message and no buffer; a run rejected by the guard instead keeps
any previous buffer next to the fresh error message. -/
theorem C6_exclusive (s₀ : AppState) (text : String) (apiKey : Option String)
    (emotion : Emotion) (svc : Except String GenResponse)
    (h1 : jsTrim text ≠ "") (h2 : keyFalsy apiKey = false) :
    ((handleGenerateSpeech s₀ text apiKey emotion svc).final.error = none ∧
      (handleGenerateSpeech s₀ text apiKey emotion svc).final.audioBuffer ≠ none) ∨
    ((handleGenerateSpeech s₀ text apiKey emotion svc).final.error ≠ none ∧
      (handleGenerateSpeech s₀ text apiKey emotion svc).final.audioBuffer = none) := by
  rw [handle_guard_false s₀ text apiKey emotion svc (guard_false_of text apiKey h1 h2)]
  rcases tryBlock text emotion svc with ⟨m | buf, called, prompt⟩
  · right
    exact ⟨by simp, rfl⟩
  · left
    exact ⟨rfl, by simp⟩

/-- Witness for C6 (amended): a failing service call with valid input
ends with the message set and the buffer clear. -/
theorem C6_witness :
    ((handleGenerateSpeech { isLoading := false, error := none, audioBuffer := none }
        "hi" (some "key") Emotion.Happy (Except.error "boom")).final.error = none ∧
      (handleGenerateSpeech { isLoading := false, error := none, audioBuffer := none }
        "hi" (some "key") Emotion.Happy (Except.error "boom")).final.audioBuffer ≠ none) ∨
    ((handleGenerateSpeech { isLoading := false, error := none, audioBuffer := none }
        "hi" (some "key") Emotion.Happy (Except.error "boom")).final.error ≠ none ∧
      (handleGenerateSpeech { isLoading := false, error := none, audioBuffer := none }
        "hi" (some "key") Emotion.Happy (Except.error "boom")).final.audioBuffer = none) :=
  C6_exclusive { isLoading := false, error := none, audioBuffer := none }
    "hi" (some "key") Emotion.Happy (Except.error "boom") (by decide) rfl

/-- `tryBlock` outcome when the service call throws. -/
theorem tryBlock_svcError (text : String) (emotion : Emotion) (m : String) :
    ∃ opt : EmotionOption, tryBlock text emotion (Except.error m)
      = (Except.error m, true, some (opt.promptPrefix ++ ": " ++ text)) := by
  rcases tryBlock_eq text emotion (Except.error m) with ⟨opt, -, htb⟩
  exact ⟨opt, htb⟩

/-- `tryBlock` outcome when the response carries no inline audio. -/
theorem tryBlock_noAudio (text : String) (emotion : Emotion) (response : GenResponse)
    (h : extractAudio response = none) :
    ∃ opt : EmotionOption, tryBlock text emotion (Except.ok response)
      = (Except.error "No audio data received from the API.", true,
         some (opt.promptPrefix ++ ": " ++ text)) := by
  rcases tryBlock_eq text emotion (Except.ok response) with ⟨opt, -, htb⟩
  refine ⟨opt, ?_⟩
  rw [htb]
  simp only [h]

/-- `tryBlock` outcome when the response carries an inline audio
payload: the decoder's verdict is passed through. -/
theorem tryBlock_audio (text : String) (emotion : Emotion) (response : GenResponse)
    (payload : String) (h : extractAudio response = some payload) :
    ∃ opt : EmotionOption, tryBlock text emotion (Except.ok response)
      = (decodePcmData (decodeBase64 payload) 24000 1, true,
         some (opt.promptPrefix ++ ": " ++ text)) := by
  rcases tryBlock_eq text emotion (Except.ok response) with ⟨opt, -, htb⟩
  refine ⟨opt, ?_⟩
  rw [htb]
  simp only [h]

/-- C7: a response whose first candidate's first part carries no inline
audio payload makes the run store the empty-response message and leave no
buffer, instead of decoding. -/
theorem C7_empty_response (s₀ : AppState) (text : String) (apiKey : Option String)
    (emotion : Emotion) (response : GenResponse)
    (h1 : jsTrim text ≠ "") (h2 : keyFalsy apiKey = false)
    (h3 : extractAudio response = none) :
    (handleGenerateSpeech s₀ text apiKey emotion (Except.ok response)).final.error
        = some "No audio data received from the API." ∧
    (handleGenerateSpeech s₀ text apiKey emotion (Except.ok response)).final.audioBuffer
        = none := by
  rw [handle_guard_false s₀ text apiKey emotion (Except.ok response)
    (guard_false_of text apiKey h1 h2)]
  rcases tryBlock_noAudio text emotion response h3 with ⟨opt, htb⟩
  rw [htb]
  exact ⟨rfl, rfl⟩

/-- Witness for C7: a response with no candidates at all. -/
theorem C7_witness :
    (handleGenerateSpeech { isLoading := false, error := none, audioBuffer := none }
        "hi" (some "key") Emotion.Happy
        (Except.ok { candidates := none })).final.error
        = some "No audio data received from the API." ∧
    (handleGenerateSpeech { isLoading := false, error := none, audioBuffer := none }
        "hi" (some "key") Emotion.Happy
        (Except.ok { candidates := none })).final.audioBuffer = none :=
  C7_empty_response { isLoading := false, error := none, audioBuffer := none }
    "hi" (some "key") Emotion.Happy { candidates := none } (by decide) rfl rfl

/-- C8: every run that passes the guard sends exactly the prompt
`"<emotionPrefix>: <text>"`, where the prefix comes from the `EMOTIONS`
entry of the selected emotion. -/
theorem C8_prompt (s₀ : AppState) (text : String) (apiKey : Option String)
    (emotion : Emotion) (svc : Except String GenResponse)
    (h1 : jsTrim text ≠ "") (h2 : keyFalsy apiKey = false) :
    ∃ opt, EMOTIONS.find? (fun e => e.id == emotion) = some opt ∧ opt.id = emotion ∧
      (handleGenerateSpeech s₀ text apiKey emotion svc).promptSent
        = some (opt.promptPrefix ++ ": " ++ text) := by
  rcases tryBlock_eq text emotion svc with ⟨opt, hfind, htb⟩
  rcases EMOTIONS_find?_id emotion with ⟨opt2, hfind2, hid⟩
  rw [hfind] at hfind2
  injection hfind2 with hopt
  subst hopt
  refine ⟨opt, hfind, hid, ?_⟩
  rcases handle_components s₀ text apiKey emotion svc (guard_false_of text apiKey h1 h2)
    with ⟨-, hprompt, -, -⟩
  rw [hprompt, htb]

/-- Witness for C8: the Happy prefix is prepended to "Hi". -/
theorem C8_witness :
    ∃ opt, EMOTIONS.find? (fun e => e.id == Emotion.Happy) = some opt ∧
      opt.id = Emotion.Happy ∧
      (handleGenerateSpeech { isLoading := false, error := none, audioBuffer := none }
          "Hi" (some "key") Emotion.Happy (Except.error "net")).promptSent
        = some (opt.promptPrefix ++ ": " ++ "Hi") :=
  C8_prompt { isLoading := false, error := none, audioBuffer := none }
    "Hi" (some "key") Emotion.Happy (Except.error "net") (by decide) rfl

/-- C9: for every run that passes the guard, the `finally` always clears
the loading flag; a throwing service call surfaces exactly its message
with no buffer, and a decoder failure on the extracted payload surfaces
the decoder's message with no buffer — nothing escapes the `catch`. -/
theorem C9_failures_surfaced (s₀ : AppState) (text : String) (apiKey : Option String)
    (emotion : Emotion) (svc : Except String GenResponse)
    (h1 : jsTrim text ≠ "") (h2 : keyFalsy apiKey = false) :
    (handleGenerateSpeech s₀ text apiKey emotion svc).final.isLoading = false ∧
    (∀ m, svc = Except.error m →
      (handleGenerateSpeech s₀ text apiKey emotion svc).final.error = some m ∧
      (handleGenerateSpeech s₀ text apiKey emotion svc).final.audioBuffer = none) ∧
    (∀ response payload m, svc = Except.ok response →
      extractAudio response = some payload →
      decodePcmData (decodeBase64 payload) 24000 1 = Except.error m →
      (handleGenerateSpeech s₀ text apiKey emotion svc).final.error = some m ∧
      (handleGenerateSpeech s₀ text apiKey emotion svc).final.audioBuffer = none) := by
  have hguard := guard_false_of text apiKey h1 h2
  refine ⟨(handle_components s₀ text apiKey emotion svc hguard).2.2.1, ?_, ?_⟩
  · intro m hm
    subst hm
    rw [handle_guard_false s₀ text apiKey emotion (Except.error m) hguard]
    rcases tryBlock_svcError text emotion m with ⟨opt, htb⟩
    rw [htb]
    exact ⟨rfl, rfl⟩
  · intro response payload m hresp hx hdec
    subst hresp
    rw [handle_guard_false s₀ text apiKey emotion (Except.ok response) hguard]
    rcases tryBlock_audio text emotion response payload hx with ⟨opt, htb⟩
    rw [htb, hdec]
    exact ⟨rfl, rfl⟩

/-- Witness for C9 on a throwing service call: the message "boom" is
surfaced, the loading flag is cleared, and no buffer is set. -/
theorem C9_witness :
    (handleGenerateSpeech { isLoading := false, error := none, audioBuffer := none }
        "hi" (some "key") Emotion.Happy (Except.error "boom")).final.isLoading = false ∧
    (∀ m, (Except.error "boom" : Except String GenResponse) = Except.error m →
      (handleGenerateSpeech { isLoading := false, error := none, audioBuffer := none }
          "hi" (some "key") Emotion.Happy (Except.error "boom")).final.error = some m ∧
      (handleGenerateSpeech { isLoading := false, error := none, audioBuffer := none }
          "hi" (some "key") Emotion.Happy (Except.error "boom")).final.audioBuffer
        = none) ∧
    (∀ response payload m,
      (Except.error "boom" : Except String GenResponse) = Except.ok response →
      extractAudio response = some payload →
      decodePcmData (decodeBase64 payload) 24000 1 = Except.error m →
      (handleGenerateSpeech { isLoading := false, error := none, audioBuffer := none }
          "hi" (some "key") Emotion.Happy (Except.error "boom")).final.error = some m ∧
      (handleGenerateSpeech { isLoading := false, error := none, audioBuffer := none }
          "hi" (some "key") Emotion.Happy (Except.error "boom")).final.audioBuffer
        = none) :=
  C9_failures_surfaced { isLoading := false, error := none, audioBuffer := none }
    "hi" (some "key") Emotion.Happy (Except.error "boom") (by decide) rfl

/-- C10: every `Emotion` value has exactly one `EMOTIONS` entry with its
id, so the lookup always succeeds; consequently the
`Invalid emotion selected.` branch is unreachable — it is the only
branch of the `try` body that does not record a service call, and
`tryBlock` always records one. -/
theorem C10_lookup_total :
    (∀ e : Emotion, (EMOTIONS.filter (fun o => o.id == e)).length = 1) ∧
    (∀ e : Emotion, ∃ opt, EMOTIONS.find? (fun o => o.id == e) = some opt ∧
      opt.id = e) ∧
    (∀ (text : String) (e : Emotion) (svc : Except String GenResponse),
      (tryBlock text e svc).2.1 = true) := by
  refine ⟨?_, EMOTIONS_find?_id, ?_⟩
  · intro e
    cases e <;> decide
  · intro text e svc
    rcases tryBlock_eq text e svc with ⟨opt, -, htb⟩
    rw [htb]
